import Mathlib

/-
Verification of the `ffmpeg_helpers` repository (file `ffmpeghelpersv3.py`):
a shallow embedding of `vidprop` and `standardise_video` together with
theorems about the claims of the specification.

Modelling conventions:
  * Python runtime values flowing out of the probe are modelled by `PyVal`
    (integers, floats as rationals, strings, `None`).
  * The external collaborators (filesystem, `ffmpeg.probe`,
    `ffmpeg ... .run()`) are oracles: their answers are passed in as
    arguments, and the calls the code makes to them are recorded in a trace
    (`List Call`).  Likewise the wall clock (`datetime.now().strftime`) and
    the random source (`uuid.uuid4().hex`) are oracle string inputs.
  * Python exceptions become the `VidError` inductive; `notFound` models
    `FileNotFoundError`, `probeFailure` a propagated `ffmpeg.Error` from
    `ffmpeg.probe`, `noVideoStream` the explicit `ValueError` raise,
    `badValue` a `ValueError`/`TypeError` raised by `int()`/`float()`
    coercion, and `transcodeFailure` the `RuntimeError` wrapper.
-/

namespace FfmpegHelpers

/-- Python-style dynamic value as decoded from the probe's JSON output:
an integer, a float (modelled exactly as a rational), a string, or `None`. -/
inductive PyVal where
  | vInt (n : Int)
  | vFloat (q : ℚ)
  | vStr (s : String)
  | vNone
deriving DecidableEq

/-- Numeric value of a digit list, most significant first (helper for the
string-to-number conversions below). -/
def digitsVal (l : List Char) : Nat :=
  l.foldl (fun n c => 10 * n + (c.toNat - 48)) 0

/-- Parse a nonempty all-digit character list as a natural number, as the
unsigned part of Python `int(str)` does; anything else fails. -/
def parseUnsigned (l : List Char) : Option Nat :=
  if l ≠ [] ∧ l.all Char.isDigit then some (digitsVal l) else none

/-- Python `int(str)`: an optional sign followed by digits; any other shape
raises `ValueError`, modelled as `none`. -/
def parseIntList : List Char → Option Int
  | '+' :: r => (parseUnsigned r).map Int.ofNat
  | '-' :: r => (parseUnsigned r).map (fun n => -(n : Int))
  | l => (parseUnsigned l).map Int.ofNat

/-- Unsigned decimal literal (`"12"`, `"12.5"`, `"12."`, `".5"`), the shape
accepted by Python `float(str)` (exponents are not modelled; the probe never
produces them for the fields the code reads). -/
def parseUFrac (l : List Char) : Option ℚ :=
  if '.' ∈ l then
    let i := l.indexOf '.'
    let ip := l.take i
    let fp := l.drop (i + 1)
    if (ip ++ fp) ≠ [] ∧ ip.all Char.isDigit ∧ fp.all Char.isDigit then
      some ((digitsVal ip : ℚ) + (digitsVal fp : ℚ) / (10 : ℚ) ^ fp.length)
    else none
  else (parseUnsigned l).map (fun n => (n : ℚ))

/-- Signed decimal literal, as Python `float(str)` parses it. -/
def parseSignedDec : List Char → Option ℚ
  | '+' :: r => parseUFrac r
  | '-' :: r => (parseUFrac r).map Neg.neg
  | l => parseUFrac l

/-- Python `Fraction(str)`: either `"numerator/denominator"` (signed
numerator, unsigned nonzero denominator) or a plain decimal literal.  A zero
denominator raises (`ZeroDivisionError`), modelled as `none`. -/
def parseFracStr (l : List Char) : Option ℚ :=
  if '/' ∈ l then
    let i := l.indexOf '/'
    let np := l.take i
    let dp := l.drop (i + 1)
    match parseIntList np, parseUnsigned dp with
    | some n, some d => if d = 0 then none else some ((n : ℚ) / (d : ℚ))
    | _, _ => none
  else parseSignedDec l

/-- Truncation toward zero, the behaviour of Python `int(float)`. -/
def ratTrunc (q : ℚ) : Int := if 0 ≤ q then ⌊q⌋ else ⌈q⌉

/-- Python `int(v)` on a dynamic value: fails (`ValueError`/`TypeError`)
on `None` and on non-numeric strings. -/
def pyInt : PyVal → Option Int
  | .vInt n => some n
  | .vFloat q => some (ratTrunc q)
  | .vStr s => parseIntList s.data
  | .vNone => none

/-- Python `float(v)` on a dynamic value: fails on `None` and on
non-numeric strings. -/
def pyFloat : PyVal → Option ℚ
  | .vInt n => some (n : ℚ)
  | .vFloat q => some q
  | .vStr s => parseSignedDec s.data
  | .vNone => none

/-- Python `Fraction(v)` applied to `vidprops.get("avg_frame_rate")`:
fails on absent values (`Fraction(None)` is a `TypeError`) and on
malformed strings. -/
def pyFraction : Option PyVal → Option ℚ
  | none => none
  | some (.vStr s) => parseFracStr s.data
  | some (.vInt n) => some (n : ℚ)
  | some (.vFloat q) => some q
  | some .vNone => none

/-- Python truthiness of a dynamic value, used by the `x or None` idiom. -/
def pyTruthy : PyVal → Bool
  | .vInt n => n != 0
  | .vFloat q => q != 0
  | .vStr s => s != ""
  | .vNone => false

/-- The `vidprops.get("codec_name") or None` idiom: an absent or falsy
value (including the empty string) becomes `None`. -/
def orNone : Option PyVal → PyVal
  | some v => if pyTruthy v then v else .vNone
  | none => .vNone

/-- The `os.path.basename(video_path) or None` idiom on a string. -/
def orNoneStr (s : String) : PyVal := if s = "" then .vNone else .vStr s

/-- One raw stream descriptor from the probe: its `codec_type` tag and the
remaining key/value pairs, read with `.get`. -/
structure Stream where
  codec_type : String
  fields : List (String × PyVal)
deriving DecidableEq

/-- Python `descriptor.get(key)` (no default): first binding of the key. -/
def Stream.getOpt (s : Stream) (k : String) : Option PyVal :=
  (s.fields.find? (fun p => p.1 == k)).map (·.2)

/-- The loop `for prop in probe["streams"]: if prop["codec_type"] == "video":
vidprops = prop; break` — the first descriptor of type `"video"`. -/
def findVideo : List Stream → Option Stream
  | [] => none
  | s :: rest => if s.codec_type == "video" then some s else findVideo rest

/-- `int(vidprops.get("width", 0))` / `int(vidprops.get("height", 0))`:
coerce the raw value, defaulting to `0` only when the key is absent. -/
def intField (x : Option PyVal) : Option Int := pyInt (x.getD (.vInt 0))

/-- `float(vidprops.get("duration", 0.0))`: coerce the raw value,
defaulting to `0.0` only when the key is absent. -/
def floatField (x : Option PyVal) : Option ℚ := pyFloat (x.getD (.vFloat 0))

/-- The frame-rate normalisation block: `Fraction` parse then `float`, and
on any exception the bare `except` assigns the integer `0`. -/
def fpsField (r : Option PyVal) : PyVal :=
  match pyFraction r with
  | some q => .vFloat q
  | none => .vInt 0

/-- View of the filesystem facts the code reads about the input path:
`os.path.isfile` at entry, `os.path.exists` at the moment of the
`file_size` read (the benign race), and `os.path.getsize`. -/
structure FSView where
  isfile : Bool
  existsAtRead : Bool
  size : Int
deriving DecidableEq

/-- The error taxonomy of the two operations (see the header comment for
the correspondence with Python exception classes). -/
inductive VidError where
  | notFound (path : String)
  | probeFailure (msg : String)
  | noVideoStream (path : String)
  | badValue (path : String)
  | transcodeFailure (msg : String)
deriving DecidableEq

/-- The fixed-key metadata dictionary built by `vidprop`, in the order the
dict literal writes it. -/
structure Metadata where
  filename : PyVal
  file_size : PyVal
  width : PyVal
  height : PyVal
  codec_name : PyVal
  avg_frame_rate : PyVal
  duration : PyVal
deriving DecidableEq

/-- `os.path.basename` on a POSIX path: the suffix after the last `/`. -/
def basenameAux (l : List Char) : List Char :=
  l.foldl (fun acc c => if c = '/' then [] else acc ++ [c]) []

/-- String-level `os.path.basename`. -/
def basename (p : String) : String := ⟨basenameAux p.data⟩

/-- Index of the last `.` in a character list (meaningful when one exists). -/
def lastDotIdx (l : List Char) : Nat := l.length - 1 - l.reverse.indexOf '.'

/-- The root part of CPython `os.path.splitext` applied to a basename: cut
at the last dot unless everything before it is dots (hidden files). -/
def splitextRoot (l : List Char) : List Char :=
  if '.' ∈ l then
    if (l.take (lastDotIdx l)).all (fun c => c = '.') then l
    else l.take (lastDotIdx l)
  else l

/-- `os.path.splitext(os.path.basename(video_path))[0]`. -/
def filenameRoot (p : String) : String := ⟨splitextRoot (basenameAux p.data)⟩

/-- The request handed to the external transcode capability: input path, the
ordered filter chain, output path, and the codec options of `.output(...)`. -/
structure TranscodeRequest where
  input : String
  filters : List (String × String)
  output : String
  vcodec : String
  acodec : Option String
  pix_fmt : String
deriving DecidableEq

/-- One call to an external collaborator, recorded in order. -/
inductive Call where
  | probeCall (path : String)
  | transcodeCall (req : TranscodeRequest)
deriving DecidableEq

/-- The `vidprop` function of `ffmpeghelpersv3.py`.  Oracle arguments: the
filesystem view and the probe capability's answer for this path.  Returns
the Python result (or the raised error) plus the trace of external calls. -/
def vidprop (fs : FSView) (probeAns : Except String (List Stream))
    (video_path : String) : Except VidError Metadata × List Call :=
  if fs.isfile = false then
    (.error (.notFound video_path), [])
  else
    match probeAns with
    | .error e => (.error (.probeFailure e), [.probeCall video_path])
    | .ok streams =>
      match findVideo streams with
      | none => (.error (.noVideoStream video_path), [.probeCall video_path])
      | some v =>
        match intField (v.getOpt "width") with
        | none => (.error (.badValue video_path), [.probeCall video_path])
        | some w =>
          match intField (v.getOpt "height") with
          | none => (.error (.badValue video_path), [.probeCall video_path])
          | some h =>
            match floatField (v.getOpt "duration") with
            | none => (.error (.badValue video_path), [.probeCall video_path])
            | some d =>
              (.ok { filename := orNoneStr (basename video_path),
                     file_size := if fs.existsAtRead then .vInt fs.size
                                  else .vInt 0,
                     width := .vInt w,
                     height := .vInt h,
                     codec_name := orNone (v.getOpt "codec_name"),
                     avg_frame_rate := fpsField (v.getOpt "avg_frame_rate"),
                     duration := .vFloat d },
               [.probeCall video_path])

/-- The argument string of the `scale` filter step,
`f"w={width}:h={height}:force_original_aspect_ratio=decrease"`. -/
def scaleArgStr (width height : Int) : String :=
  "w=" ++ toString width ++ ":h=" ++ toString height ++
    ":force_original_aspect_ratio=decrease"

/-- The argument string of the `pad` filter step,
`f"{width}:{height}:(ow-iw)/2:(oh-ih)/2"`. -/
def padArgStr (width height : Int) : String :=
  toString width ++ ":" ++ toString height ++ ":(ow-iw)/2:(oh-ih)/2"

/-- `f"{user_ID}_" if user_ID else ""` — note `None` and the empty string
are both falsy. -/
def userTagStr : Option String → String
  | some u => if u = "" then "" else u ++ "_"
  | none => ""

/-- Python character slicing `s[:8]`, used on `uuid.uuid4().hex`. -/
def sliceTo8 (s : String) : String := ⟨s.data.take 8⟩

/-- The f-string building `output_path`:
`f"{user_tag}{filename_root}_std_at_{timestamp}_{unique_ID}.{filetype}"`. -/
def outputName (user_ID : Option String) (video_path ts uid8 filetype : String) :
    String :=
  userTagStr user_ID ++ filenameRoot video_path ++ "_std_at_" ++ ts ++ "_" ++
    uid8 ++ "." ++ filetype

/-- The transcode request `standardise_video` hands to ffmpeg: the two
chained `.filter` calls in order, then `.output(output_path,
vcodec='libx264', **audioarg, pix_fmt='yuv420p')` where `audioarg` is
`{"acodec": "aac"}` exactly when some stream has `codec_type == "audio"`. -/
def stdRequest (streams : List Stream) (video_path ts uid8 filetype : String)
    (width height : Int) (user_ID : Option String) : TranscodeRequest :=
  { input := video_path,
    filters := [("scale", scaleArgStr width height),
                ("pad", padArgStr width height)],
    output := outputName user_ID video_path ts uid8 filetype,
    vcodec := "libx264",
    acodec := if streams.any (fun s => s.codec_type == "audio")
              then some "aac" else none,
    pix_fmt := "yuv420p" }

/-- The `standardise_video` function of `ffmpeghelpersv3.py`.  Oracle
arguments: filesystem view, probe answer, transcode answer, the formatted
timestamp `ts` (wall clock) and the random `uuidHex` (`uuid.uuid4().hex`).
The remaining parameters mirror the Python signature — note `fps` is a
parameter of the source function.  Returns the output path (or the raised
error) plus the trace of external calls. -/
def standardise_video (fs : FSView) (probeAns : Except String (List Stream))
    (transcodeAns : Except String Unit) (ts uuidHex : String)
    (video_path : String) (filetype : String) (width height fps : Int)
    (user_ID : Option String) : Except VidError String × List Call :=
  if fs.isfile = false then
    (.error (.notFound video_path), [])
  else
    match probeAns with
    | .error e => (.error (.probeFailure e), [.probeCall video_path])
    | .ok streams =>
      let req := stdRequest streams video_path ts (sliceTo8 uuidHex) filetype
        width height user_ID
      match transcodeAns with
      | .error e =>
        (.error (.transcodeFailure e),
         [.probeCall video_path, .transcodeCall req])
      | .ok _ => (.ok req.output, [.probeCall video_path, .transcodeCall req])

/-- Modelled from the spec: the geometry of the external `scale` filter with
`force_original_aspect_ratio=decrease` — "scale the input so it fits
entirely within target width × height while preserving original aspect
ratio".  The uniform scale factor is `min (W/iw) (H/ih)`, computed over ℚ
(the exact geometry; the external tool additionally rounds to pixels). -/
def scaleFit (W H iw ih : ℚ) : ℚ × ℚ :=
  (iw * min (W / iw) (H / ih), ih * min (W / iw) (H / ih))

/-- Modelled from the spec: the margin a pad offset expression `(ow-iw)/2`
(resp. `(oh-ih)/2`) denotes — half the difference between the target
dimension and the scaled content's dimension. -/
def padOffset (target inner : ℚ) : ℚ := (target - inner) / 2

/-- Rounding a rational to two decimal places (round-half-up on the
hundredths, matching what "rounds to 29.97" asserts). -/
def roundTo2 (q : ℚ) : ℚ := ((round (q * 100) : ℤ) : ℚ) / 100

/-- A lowercase hexadecimal digit, the alphabet of `uuid.uuid4().hex`. -/
def isHexLower (c : Char) : Bool := c.isDigit || ('a' ≤ c && c ≤ 'f')

end FfmpegHelpers

deriving instance DecidableEq for Except

namespace FfmpegHelpers

/-! ### Helper lemmas -/

theorem string_eq_of_data {a b : String} (h : a.data = b.data) : a = b :=
  congrArg String.mk h

theorem basename_foldl_no_slash (l : List Char) :
    ∀ acc, '/' ∉ acc →
      '/' ∉ l.foldl (fun a c => if c = '/' then [] else a ++ [c]) acc := by
  induction l with
  | nil => intro acc h; simpa using h
  | cons c cs ih =>
    intro acc h
    simp only [List.foldl_cons]
    by_cases hc : c = '/'
    · exact ih _ (by simp [hc])
    · refine ih _ ?_
      intro hm
      rw [if_neg hc] at hm
      rcases List.mem_append.mp hm with h1 | h2
      · exact h h1
      · exact hc (List.mem_singleton.mp h2).symm

theorem basename_no_slash (p : String) : '/' ∉ (basename p).data :=
  basename_foldl_no_slash p.data [] (by simp)

theorem splitextRoot_subset (l : List Char) : ∀ c ∈ splitextRoot l, c ∈ l := by
  intro c hc
  unfold splitextRoot at hc
  split at hc
  · split at hc
    · exact hc
    · exact List.mem_of_mem_take hc
  · exact hc

theorem filenameRoot_no_slash (p : String) : '/' ∉ (filenameRoot p).data :=
  fun h => basename_no_slash p (splitextRoot_subset _ _ h)

theorem outputName_uid_inj {tag : Option String} {path ts ft x y : String}
    (hl : x.data.length = y.data.length)
    (h : outputName tag path ts x ft = outputName tag path ts y ft) : x = y := by
  have hd := congrArg String.data h
  simp only [outputName, String.data_append, List.append_assoc] at hd
  replace hd := List.append_cancel_left hd
  replace hd := List.append_cancel_left hd
  replace hd := List.append_cancel_left hd
  replace hd := List.append_cancel_left hd
  replace hd := List.append_cancel_left hd
  exact string_eq_of_data (List.append_inj hd hl).1

theorem findVideo_append_first (pre : List Stream) (s : Stream) (post : List Stream)
    (hpre : ∀ t ∈ pre, t.codec_type ≠ "video") (hs : s.codec_type = "video") :
    findVideo (pre ++ s :: post) = some s := by
  induction pre with
  | nil => simp [findVideo, hs]
  | cons t ts ih =>
    have ht : t.codec_type ≠ "video" := hpre t (by simp)
    simp only [List.cons_append, findVideo]
    rw [if_neg (by simpa using ht)]
    exact ih fun x hx => hpre x (by simp [hx])

theorem findVideo_none (streams : List Stream)
    (h : ∀ t ∈ streams, t.codec_type ≠ "video") : findVideo streams = none := by
  induction streams with
  | nil => rfl
  | cons t ts ih =>
    simp only [findVideo]
    rw [if_neg (by simpa using h t (by simp))]
    exact ih fun x hx => h x (by simp [hx])

/-! ### Claims -/

/-- C1: the claim says two calls to `standardise_video` that differ only in
the `fps` argument produce different transcode requests reflecting their
frame rates.  On the code this is false: `fps` is accepted (and documented
in the docstring as "Target frames per second") but never used — neither
the filter chain nor the output options mention a frame rate — so the
whole result, transcode request and call trace included, is identical for
any two `fps` values.  This theorem evidences the code bug. -/
theorem c1_fps_ignored (fs : FSView) (pa : Except String (List Stream))
    (ta : Except String Unit) (ts uh path ft : String) (w h f1 f2 : Int)
    (tag : Option String) :
    standardise_video fs pa ta ts uh path ft w h f1 tag
      = standardise_video fs pa ta ts uh path ft w h f2 tag := rfl

/-- C2 counterexample: the claim says `vidprop` raises no error even when
width/height/duration are non-numeric, returns `avg_frame_rate` as floating
point with default `0.0`, and `codec_name` string-or-null.  On the code:
a non-numeric `width` string raises (`int("abc")` is a `ValueError`); a
missing `avg_frame_rate` yields the *integer* `0` (the bare `except` branch
assigns `0`, not `0.0`); a non-string truthy `codec_name` is passed through
raw. -/
theorem c2_counterexample :
    (vidprop ⟨true, true, 7⟩
        (.ok [⟨"video", [("width", .vStr "abc")]⟩]) "a.mp4").1
      = .error (.badValue "a.mp4") ∧
    (vidprop ⟨true, true, 7⟩ (.ok [⟨"video", []⟩]) "b.mp4").1
      = .ok ⟨.vStr "b.mp4", .vInt 7, .vInt 0, .vInt 0, .vNone, .vInt 0,
             .vFloat 0⟩ ∧
    (vidprop ⟨true, true, 7⟩
        (.ok [⟨"video", [("codec_name", .vInt 5)]⟩]) "c.mp4").1
      = .ok ⟨.vStr "c.mp4", .vInt 7, .vInt 0, .vInt 0, .vInt 5, .vInt 0,
             .vFloat 0⟩ :=
  ⟨by decide, by decide, by decide⟩

/-- C3: frame-rate normalisation in `vidprop`: the rational string
`"30000/1001"` is parsed exactly and the returned `avg_frame_rate` is the
decimal value 30000/1001, which rounds to 29.97 at two decimal places;
`"0/1"` yields 0.0 and an absent rate yields numeric zero, in both cases
without an error (the whole record is still returned). -/
theorem c3_frame_rate_normalisation :
    fpsField (some (.vStr "30000/1001")) = .vFloat (30000 / 1001) ∧
    roundTo2 (30000 / 1001) = 2997 / 100 ∧
    fpsField (some (.vStr "0/1")) = .vFloat 0 ∧
    fpsField none = .vInt 0 ∧
    (vidprop ⟨true, true, 7⟩
        (.ok [⟨"video", [("avg_frame_rate", .vStr "30000/1001")]⟩]) "a.mp4").1
      = .ok ⟨.vStr "a.mp4", .vInt 7, .vInt 0, .vInt 0, .vNone,
             .vFloat (30000 / 1001), .vFloat 0⟩ ∧
    (vidprop ⟨true, true, 7⟩
        (.ok [⟨"video", [("avg_frame_rate", .vStr "0/1")]⟩]) "b.mp4").1
      = .ok ⟨.vStr "b.mp4", .vInt 7, .vInt 0, .vInt 0, .vNone,
             .vFloat 0, .vFloat 0⟩ ∧
    (vidprop ⟨true, true, 7⟩ (.ok [⟨"video", []⟩]) "c.mp4").1
      = .ok ⟨.vStr "c.mp4", .vInt 7, .vInt 0, .vInt 0, .vNone, .vInt 0,
             .vFloat 0⟩ := by
  refine ⟨rfl, by norm_num [roundTo2, round_eq], ?_, rfl, rfl, ?_, by decide⟩
  · have h : fpsField (some (.vStr "0/1")) = .vFloat (0 / 1) := rfl
    rw [h]
    norm_num
  · have h : (vidprop ⟨true, true, 7⟩
        (.ok [⟨"video", [("avg_frame_rate", .vStr "0/1")]⟩]) "b.mp4").1
        = .ok ⟨.vStr "b.mp4", .vInt 7, .vInt 0, .vInt 0, .vNone,
               .vFloat (0 / 1), .vFloat 0⟩ := rfl
    rw [h]
    norm_num

/-- C4: when the probe of an existing input fails, `standardise_video`
propagates the probe failure (the `ffmpeg.Error` is raised outside the
`try` block), the trace holds only the probe call, and in particular no
transcode is ever requested. -/
theorem c4_probe_failure_aborts (fs : FSView) (ta : Except String Unit)
    (ts uh path ft : String) (w h fps : Int) (tag : Option String)
    (e : String) (hfs : fs.isfile = true) :
    (standardise_video fs (.error e) ta ts uh path ft w h fps tag).1
      = .error (.probeFailure e) ∧
    (standardise_video fs (.error e) ta ts uh path ft w h fps tag).2
      = [.probeCall path] ∧
    ∀ r, Call.transcodeCall r
      ∉ (standardise_video fs (.error e) ta ts uh path ft w h fps tag).2 := by
  refine ⟨?_, ?_, ?_⟩ <;> simp [standardise_video, hfs]

/-- C4 witness at a concrete probe failure. -/
theorem c4_probe_failure_aborts_witness :
    (standardise_video ⟨true, true, 7⟩ (.error "boom") (.ok ()) "T" "U"
        "clip.mov" "mp4" 1280 720 30 none).1 = .error (.probeFailure "boom") ∧
    (standardise_video ⟨true, true, 7⟩ (.error "boom") (.ok ()) "T" "U"
        "clip.mov" "mp4" 1280 720 30 none).2 = [.probeCall "clip.mov"] :=
  ⟨(c4_probe_failure_aborts ⟨true, true, 7⟩ (.ok ()) "T" "U" "clip.mov" "mp4"
      1280 720 30 none "boom" rfl).1,
   (c4_probe_failure_aborts ⟨true, true, 7⟩ (.ok ()) "T" "U" "clip.mov" "mp4"
      1280 720 30 none "boom" rfl).2.1⟩

/-- C8: for a path that does not reference an existing file, both
operations fail with the not-found error and the trace is empty: the probe
capability is never invoked. -/
theorem c8_notfound_before_probe (fs : FSView) (pa : Except String (List Stream))
    (ta : Except String Unit) (ts uh path ft : String) (w h fps : Int)
    (tag : Option String) (hfs : fs.isfile = false) :
    vidprop fs pa path = (.error (.notFound path), []) ∧
    standardise_video fs pa ta ts uh path ft w h fps tag
      = (.error (.notFound path), []) := by
  constructor <;> simp [vidprop, standardise_video, hfs]

/-- C8 witness at a concrete missing file. -/
theorem c8_notfound_before_probe_witness :
    vidprop ⟨false, false, 0⟩ (.ok []) "missing.mp4"
      = (.error (.notFound "missing.mp4"), []) ∧
    standardise_video ⟨false, false, 0⟩ (.ok []) (.ok ()) "T" "U" "missing.mp4"
        "mp4" 1280 720 30 none
      = (.error (.notFound "missing.mp4"), []) :=
  c8_notfound_before_probe ⟨false, false, 0⟩ (.ok []) (.ok ()) "T" "U"
    "missing.mp4" "mp4" 1280 720 30 none rfl

/-- C10 counterexample: the claim says the output path of every successful
call is a bare filename with no directory component.  A user tag containing
a path separator refutes it: the tag is spliced into the name verbatim, so
the output path gains a directory component. -/
theorem c10_counterexample :
    (standardise_video ⟨true, true, 7⟩ (.ok []) (.ok ()) "2026-01-01_00-00-00"
        "aaaabbbbccccddddeeeeffff00001111" "vids/clip.mov" "mp4" 1280 720 30
        (some "u/42")).1
      = .ok "u/42_clip_std_at_2026-01-01_00-00-00_aaaabbbb.mp4" ∧
    '/' ∈ ("u/42_clip_std_at_2026-01-01_00-00-00_aaaabbbb.mp4" : String).data :=
  ⟨by decide, by decide⟩

/-- C5: modelling the wall clock and the random source as oracle inputs
(`ts` is the formatted timestamp, `u1`/`u2` the two `uuid4().hex` draws):
two calls within the same second (same `ts`) whose 8-character
disambiguators differ return different paths, and each returned path is
exactly `{userTag_}{stem}_std_at_{timestamp}_{8-hex-chars}.{ext}` — with
a length-8 all-hex disambiguator, and with the user-tag part empty (not
even an underscore) when no tag is supplied. -/
theorem c5_collision_and_pattern (fs : FSView) (streams : List Stream)
    (ts u1 u2 path ft : String) (w h fps : Int) (tag : Option String)
    (hfs : fs.isfile = true)
    (h1 : 8 ≤ u1.data.length) (h2 : 8 ≤ u2.data.length)
    (hx1 : ∀ c ∈ u1.data, isHexLower c = true)
    (hx2 : ∀ c ∈ u2.data, isHexLower c = true)
    (hne : sliceTo8 u1 ≠ sliceTo8 u2) :
    (standardise_video fs (.ok streams) (.ok ()) ts u1 path ft w h fps tag).1
      = .ok (userTagStr tag ++ filenameRoot path ++ "_std_at_" ++ ts ++ "_"
          ++ sliceTo8 u1 ++ "." ++ ft) ∧
    (standardise_video fs (.ok streams) (.ok ()) ts u2 path ft w h fps tag).1
      = .ok (userTagStr tag ++ filenameRoot path ++ "_std_at_" ++ ts ++ "_"
          ++ sliceTo8 u2 ++ "." ++ ft) ∧
    (standardise_video fs (.ok streams) (.ok ()) ts u1 path ft w h fps tag).1
      ≠ (standardise_video fs (.ok streams) (.ok ()) ts u2 path ft w h fps tag).1 ∧
    (sliceTo8 u1).data.length = 8 ∧ (sliceTo8 u2).data.length = 8 ∧
    (∀ c ∈ (sliceTo8 u1).data, isHexLower c = true) ∧
    (∀ c ∈ (sliceTo8 u2).data, isHexLower c = true) ∧
    userTagStr none = "" := by
  have hres : ∀ u : String,
      (standardise_video fs (.ok streams) (.ok ()) ts u path ft w h fps tag).1
        = .ok (outputName tag path ts (sliceTo8 u) ft) := by
    intro u
    simp [standardise_video, hfs, stdRequest]
  refine ⟨?_, ?_, ?_, ?_, ?_, ?_, ?_, rfl⟩
  · rw [hres u1]; rfl
  · rw [hres u2]; rfl
  · rw [hres u1, hres u2]
    intro heq
    have hlen : (sliceTo8 u1).data.length = (sliceTo8 u2).data.length := by
      simp only [sliceTo8, List.length_take]
      omega
    exact hne (outputName_uid_inj hlen (Except.ok.inj heq))
  · simp only [sliceTo8, List.length_take]; omega
  · simp only [sliceTo8, List.length_take]; omega
  · intro c hc
    exact hx1 c (List.take_subset 8 u1.data hc)
  · intro c hc
    exact hx2 c (List.take_subset 8 u2.data hc)

/-- C5 witness: two concrete same-second calls with distinct disambiguator
draws return distinct paths of the stated pattern. -/
theorem c5_collision_and_pattern_witness :
    (standardise_video ⟨true, true, 7⟩ (.ok []) (.ok ()) "2026-01-01_00-00-00"
        "0123456789abcdef0123456789abcdef" "clip.mov" "mp4" 1280 720 30
        (some "u42")).1
      = .ok (userTagStr (some "u42") ++ filenameRoot "clip.mov" ++ "_std_at_"
          ++ "2026-01-01_00-00-00" ++ "_"
          ++ sliceTo8 "0123456789abcdef0123456789abcdef" ++ "." ++ "mp4") ∧
    (standardise_video ⟨true, true, 7⟩ (.ok []) (.ok ()) "2026-01-01_00-00-00"
        "0123456789abcdef0123456789abcdef" "clip.mov" "mp4" 1280 720 30
        (some "u42")).1
      ≠ (standardise_video ⟨true, true, 7⟩ (.ok []) (.ok ())
          "2026-01-01_00-00-00" "fedcba9876543210fedcba9876543210" "clip.mov"
          "mp4" 1280 720 30 (some "u42")).1 :=
  ⟨(c5_collision_and_pattern ⟨true, true, 7⟩ [] "2026-01-01_00-00-00"
      "0123456789abcdef0123456789abcdef" "fedcba9876543210fedcba9876543210"
      "clip.mov" "mp4" 1280 720 30 (some "u42") rfl (by decide) (by decide)
      (by decide) (by decide) (by decide)).1,
   (c5_collision_and_pattern ⟨true, true, 7⟩ [] "2026-01-01_00-00-00"
      "0123456789abcdef0123456789abcdef" "fedcba9876543210fedcba9876543210"
      "clip.mov" "mp4" 1280 720 30 (some "u42") rfl (by decide) (by decide)
      (by decide) (by decide) (by decide)).2.2.1⟩

/-- C6: for every successfully probed input the transcode request is made
(it appears in the call trace), and its audio-codec option is absent when
no stream descriptor has type `"audio"` and is the fixed `"aac"` when at
least one has — regardless of the source audio codec. -/
theorem c6_audio_codec (fs : FSView) (streams : List Stream)
    (ta : Except String Unit) (ts uh path ft : String) (w h fps : Int)
    (tag : Option String) (hfs : fs.isfile = true) :
    (standardise_video fs (.ok streams) ta ts uh path ft w h fps tag).2
      = [.probeCall path,
         .transcodeCall (stdRequest streams path ts (sliceTo8 uh) ft w h tag)] ∧
    ((∀ s ∈ streams, s.codec_type ≠ "audio") →
      (stdRequest streams path ts (sliceTo8 uh) ft w h tag).acodec = none) ∧
    ((∃ s ∈ streams, s.codec_type = "audio") →
      (stdRequest streams path ts (sliceTo8 uh) ft w h tag).acodec
        = some "aac") := by
  refine ⟨?_, ?_, ?_⟩
  · cases ta <;> simp [standardise_video, hfs]
  · intro hno
    have hfalse : streams.any (fun s => s.codec_type == "audio") = false := by
      simp only [List.any_eq_false, beq_iff_eq]
      exact hno
    simp [stdRequest, hfalse]
  · intro hyes
    have htrue : streams.any (fun s => s.codec_type == "audio") = true := by
      simp only [List.any_eq_true, beq_iff_eq]
      exact hyes
    simp [stdRequest, htrue]

/-- C6 witness: a concrete audio-bearing file gets the fixed AAC codec
(its own codec being e.g. mp3 plays no role), and the request is traced. -/
theorem c6_audio_codec_witness :
    (standardise_video ⟨true, true, 7⟩
        (.ok [⟨"audio", [("codec_name", .vStr "mp3")]⟩]) (.ok ()) "T"
        "0123456789abcdef0123456789abcdef" "clip.mov" "mp4" 1280 720 30
        none).2
      = [.probeCall "clip.mov",
         .transcodeCall (stdRequest [⟨"audio", [("codec_name", .vStr "mp3")]⟩]
           "clip.mov" "T" (sliceTo8 "0123456789abcdef0123456789abcdef") "mp4"
           1280 720 none)] ∧
    (stdRequest [⟨"audio", [("codec_name", .vStr "mp3")]⟩] "clip.mov" "T"
        (sliceTo8 "0123456789abcdef0123456789abcdef") "mp4" 1280 720
        none).acodec = some "aac" :=
  ⟨(c6_audio_codec ⟨true, true, 7⟩ [⟨"audio", [("codec_name", .vStr "mp3")]⟩]
      (.ok ()) "T" "0123456789abcdef0123456789abcdef" "clip.mov" "mp4" 1280
      720 30 none rfl).1,
   (c6_audio_codec ⟨true, true, 7⟩ [⟨"audio", [("codec_name", .vStr "mp3")]⟩]
      (.ok ()) "T" "0123456789abcdef0123456789abcdef" "clip.mov" "mp4" 1280
      720 30 none rfl).2.2
     ⟨⟨"audio", [("codec_name", .vStr "mp3")]⟩, by simp, rfl⟩⟩

/-- C7: the filter chain of every transcode request is, in fixed order, the
scale step (fit inside the target box, aspect ratio preserved) then the pad
step; and the geometry these parameters denote (`scaleFit`, `padOffset`,
modelled from the spec) fits any positive source inside the target box
without cropping or distortion — the scaled size never exceeds the box, the
aspect ratio is preserved exactly, and the centred pad margins are
non-negative and two of them fill the remaining dimension. -/
theorem c7_filter_chain_geometry (fs : FSView) (streams : List Stream)
    (ta : Except String Unit) (ts uh path ft : String) (fps : Int)
    (tag : Option String) (w h : Int) (hfs : fs.isfile = true)
    (hw : (0 : Int) < w) (hh : (0 : Int) < h) :
    (standardise_video fs (.ok streams) ta ts uh path ft w h fps tag).2
      = [.probeCall path,
         .transcodeCall (stdRequest streams path ts (sliceTo8 uh) ft w h tag)] ∧
    (stdRequest streams path ts (sliceTo8 uh) ft w h tag).filters
      = [("scale", scaleArgStr w h), ("pad", padArgStr w h)] ∧
    ∀ iw ih : ℚ, 0 < iw → 0 < ih →
      (scaleFit w h iw ih).1 ≤ (w : ℚ) ∧ (scaleFit w h iw ih).2 ≤ (h : ℚ) ∧
      0 < (scaleFit w h iw ih).1 ∧ 0 < (scaleFit w h iw ih).2 ∧
      (scaleFit w h iw ih).1 * ih = (scaleFit w h iw ih).2 * iw ∧
      0 ≤ padOffset w (scaleFit w h iw ih).1 ∧
      0 ≤ padOffset h (scaleFit w h iw ih).2 ∧
      padOffset w (scaleFit w h iw ih).1 * 2 + (scaleFit w h iw ih).1 = (w : ℚ) ∧
      padOffset h (scaleFit w h iw ih).2 * 2 + (scaleFit w h iw ih).2 = (h : ℚ) := by
  refine ⟨?_, rfl, ?_⟩
  · cases ta <;> simp [standardise_video, hfs]
  · intro iw ih hiw hih
    have hwq : (0 : ℚ) < (w : ℚ) := by exact_mod_cast hw
    have hhq : (0 : ℚ) < (h : ℚ) := by exact_mod_cast hh
    have hfpos : 0 < min ((w : ℚ) / iw) ((h : ℚ) / ih) :=
      lt_min (div_pos hwq hiw) (div_pos hhq hih)
    have hle1 : iw * min ((w : ℚ) / iw) ((h : ℚ) / ih) ≤ (w : ℚ) := by
      calc iw * min ((w : ℚ) / iw) ((h : ℚ) / ih)
          ≤ iw * ((w : ℚ) / iw) :=
            mul_le_mul_of_nonneg_left (min_le_left _ _) hiw.le
        _ = (w : ℚ) := by field_simp
    have hle2 : ih * min ((w : ℚ) / iw) ((h : ℚ) / ih) ≤ (h : ℚ) := by
      calc ih * min ((w : ℚ) / iw) ((h : ℚ) / ih)
          ≤ ih * ((h : ℚ) / ih) :=
            mul_le_mul_of_nonneg_left (min_le_right _ _) hih.le
        _ = (h : ℚ) := by field_simp
    simp only [scaleFit, padOffset]
    refine ⟨hle1, hle2, mul_pos hiw hfpos, mul_pos hih hfpos, by ring, ?_, ?_,
      by ring, by ring⟩
    · have := sub_nonneg.mpr hle1
      positivity
    · have := sub_nonneg.mpr hle2
      positivity

/-- C7 witness: concrete 1280×720 target; the geometry facts instantiated
at the 3840×2160 source of the spec's example. -/
theorem c7_filter_chain_geometry_witness :
    (standardise_video ⟨true, true, 7⟩ (.ok []) (.ok ()) "T"
        "0123456789abcdef0123456789abcdef" "clip.mov" "mp4" 1280 720 30
        none).2
      = [.probeCall "clip.mov",
         .transcodeCall (stdRequest [] "clip.mov" "T"
           (sliceTo8 "0123456789abcdef0123456789abcdef") "mp4" 1280 720
           none)] ∧
    (stdRequest [] "clip.mov" "T"
        (sliceTo8 "0123456789abcdef0123456789abcdef") "mp4" 1280 720
        none).filters
      = [("scale", scaleArgStr 1280 720), ("pad", padArgStr 1280 720)] ∧
    (scaleFit 1280 720 3840 2160).1 ≤ (1280 : ℚ) ∧
    (scaleFit 1280 720 3840 2160).2 ≤ (720 : ℚ) ∧
    (scaleFit 1280 720 3840 2160).1 * 2160
      = (scaleFit 1280 720 3840 2160).2 * 3840 ∧
    0 ≤ padOffset 1280 (scaleFit 1280 720 3840 2160).1 ∧
    0 ≤ padOffset 720 (scaleFit 1280 720 3840 2160).2 ∧
    padOffset 1280 (scaleFit 1280 720 3840 2160).1 * 2
      + (scaleFit 1280 720 3840 2160).1 = (1280 : ℚ) := by
  have main := c7_filter_chain_geometry ⟨true, true, 7⟩ [] (.ok ()) "T"
    "0123456789abcdef0123456789abcdef" "clip.mov" "mp4" 30 none 1280 720 rfl
    (by norm_num) (by norm_num)
  have geo := main.2.2 3840 2160 (by norm_num) (by norm_num)
  exact ⟨main.1, main.2.1, geo.1, geo.2.1, geo.2.2.2.2.1, geo.2.2.2.2.2.1,
    geo.2.2.2.2.2.2.1, geo.2.2.2.2.2.2.2.1⟩

/-- C9: `vidprop` builds its result from the first descriptor whose type is
`"video"` (its outcome on a stream list whose first video descriptor is `s`
coincides with its outcome on `[s]` alone); with no video descriptor it
fails with the no-video-stream error; and that error is a condition
distinct from a probe failure. -/
theorem c9_first_video_stream :
    (∀ (pre : List Stream) (s : Stream) (post : List Stream) (fs : FSView)
        (path : String),
      (∀ t ∈ pre, t.codec_type ≠ "video") → s.codec_type = "video" →
      vidprop fs (.ok (pre ++ s :: post)) path = vidprop fs (.ok [s]) path) ∧
    (∀ (fs : FSView) (streams : List Stream) (path : String),
      fs.isfile = true → (∀ t ∈ streams, t.codec_type ≠ "video") →
      (vidprop fs (.ok streams) path).1 = .error (.noVideoStream path)) ∧
    (∀ p m, VidError.noVideoStream p ≠ VidError.probeFailure m) := by
  refine ⟨?_, ?_, ?_⟩
  · intro pre s post fs path hpre hs
    have e1 := findVideo_append_first pre s post hpre hs
    have e2 : findVideo [s] = some s := by simp [findVideo, hs]
    simp only [vidprop, e1, e2]
  · intro fs streams path hfs hno
    have e := findVideo_none streams hno
    simp [vidprop, hfs, e]
  · intro p m hpm
    exact VidError.noConfusion hpm

/-- C9 witness: the audio descriptor is skipped, the first of two video
descriptors is used, a video-free list fails with the distinct error. -/
theorem c9_first_video_stream_witness :
    vidprop ⟨true, true, 7⟩
        (.ok [⟨"audio", []⟩, ⟨"video", [("width", .vInt 640)]⟩,
              ⟨"video", [("width", .vInt 999)]⟩]) "a.mp4"
      = vidprop ⟨true, true, 7⟩ (.ok [⟨"video", [("width", .vInt 640)]⟩])
          "a.mp4" ∧
    (vidprop ⟨true, true, 7⟩ (.ok [⟨"audio", []⟩]) "a.mp4").1
      = .error (.noVideoStream "a.mp4") ∧
    VidError.noVideoStream "a.mp4" ≠ VidError.probeFailure "boom" :=
  ⟨c9_first_video_stream.1 [⟨"audio", []⟩] ⟨"video", [("width", .vInt 640)]⟩
      [⟨"video", [("width", .vInt 999)]⟩] ⟨true, true, 7⟩ "a.mp4" (by decide)
      rfl,
   c9_first_video_stream.2.1 ⟨true, true, 7⟩ [⟨"audio", []⟩] "a.mp4" rfl
     (by decide),
   c9_first_video_stream.2.2 "a.mp4" "boom"⟩

/-- C10 (as amended): provided the user tag and target extension contain no
path separator (the timestamp and uuid-hex oracles never do), the path
returned by a successful `standardise_video` call contains no `/` at all —
the input path's directory is stripped by the basename step — so the output
lands in the process's current working directory. -/
theorem c10_bare_filename (fs : FSView) (streams : List Stream)
    (ta : Except String Unit) (ts uh path ft : String) (w h fps : Int)
    (tag : Option String) (out : String)
    (hts : '/' ∉ ts.data) (huh : '/' ∉ uh.data) (hft : '/' ∉ ft.data)
    (htag : ∀ u, tag = some u → '/' ∉ u.data)
    (hout : (standardise_video fs (.ok streams) ta ts uh path ft w h fps
      tag).1 = .ok out) : '/' ∉ out.data := by
  by_cases hf : fs.isfile = false
  · simp [standardise_video, hf] at hout
  · cases ta with
    | error e => simp [standardise_video, hf] at hout
    | ok u =>
      simp [standardise_video, hf, stdRequest] at hout
      subst hout
      intro hmem
      simp only [outputName, String.data_append, List.mem_append] at hmem
      rcases hmem with ((((((htagm | hroot) | hs1) | hts') | hs2) | hu8)
        | hdot) | hftm
      · rcases tag with _ | utag
        · simp [userTagStr] at htagm
        · by_cases hu0 : utag = ""
          · simp [userTagStr, hu0] at htagm
          · simp only [userTagStr, if_neg hu0, String.data_append,
              List.mem_append] at htagm
            rcases htagm with h1 | h2
            · exact htag utag rfl h1
            · exact absurd h2 (by decide)
      · exact filenameRoot_no_slash path hroot
      · exact absurd hs1 (by decide)
      · exact hts hts'
      · exact absurd hs2 (by decide)
      · exact huh (List.take_subset _ _ hu8)
      · exact absurd hdot (by decide)
      · exact hft hftm

/-- C10 witness: a concrete successful call whose input sits in a
subdirectory returns a separator-free bare filename. -/
theorem c10_bare_filename_witness :
    '/' ∉ ("u42_clip_std_at_2026-01-01_00-00-00_01234567.mp4" : String).data :=
  c10_bare_filename ⟨true, true, 7⟩ [] (.ok ()) "2026-01-01_00-00-00"
    "0123456789abcdef0123456789abcdef" "vids/clip.mov" "mp4" 1280 720 30
    (some "u42") "u42_clip_std_at_2026-01-01_00-00-00_01234567.mp4"
    (by decide) (by decide) (by decide)
    (fun u hu => by cases hu; decide) (by decide)

/-- C2 (as amended): for a successfully probed file whose first video
descriptor carries width, height and duration values that are absent or
numeric, and whose codec name, when present and truthy, is a string,
`vidprop` succeeds and returns the record of exactly the seven fields
(`Metadata` has no others) with: filename and codec name string-or-null,
file size, width and height integers, duration floating point, and the
frame rate either a parsed floating-point value or the integer 0; absent
source values give the per-field defaults. -/
theorem c2_typed_record (fs : FSView) (streams : List Stream) (path : String)
    (s : Stream) (hfs : fs.isfile = true) (hv : findVideo streams = some s)
    (hw : (intField (s.getOpt "width")).isSome = true)
    (hh : (intField (s.getOpt "height")).isSome = true)
    (hd : (floatField (s.getOpt "duration")).isSome = true)
    (hc : ∀ v, s.getOpt "codec_name" = some v → pyTruthy v = true →
      ∃ cn, v = .vStr cn) :
    ∃ m, (vidprop fs (.ok streams) path).1 = .ok m ∧
      (m.filename = .vNone ∨ ∃ fn, m.filename = .vStr fn) ∧
      (∃ n, m.file_size = .vInt n) ∧
      (∃ n, m.width = .vInt n) ∧
      (∃ n, m.height = .vInt n) ∧
      (m.codec_name = .vNone ∨ ∃ cn, m.codec_name = .vStr cn) ∧
      ((∃ q, m.avg_frame_rate = .vFloat q) ∨ m.avg_frame_rate = .vInt 0) ∧
      (∃ q, m.duration = .vFloat q) ∧
      (s.getOpt "width" = none → m.width = .vInt 0) ∧
      (s.getOpt "height" = none → m.height = .vInt 0) ∧
      (s.getOpt "duration" = none → m.duration = .vFloat 0) ∧
      (s.getOpt "codec_name" = none → m.codec_name = .vNone) ∧
      (s.getOpt "avg_frame_rate" = none → m.avg_frame_rate = .vInt 0) ∧
      (fs.existsAtRead = false → m.file_size = .vInt 0) := by
  rw [Option.isSome_iff_exists] at hw hh hd
  obtain ⟨wv, hwv⟩ := hw
  obtain ⟨hv2, hhv⟩ := hh
  obtain ⟨dv, hdv⟩ := hd
  refine ⟨⟨orNoneStr (basename path),
           if fs.existsAtRead then .vInt fs.size else .vInt 0,
           .vInt wv, .vInt hv2, orNone (s.getOpt "codec_name"),
           fpsField (s.getOpt "avg_frame_rate"), .vFloat dv⟩,
    ?_, ?_, ?_, ⟨wv, rfl⟩, ⟨hv2, rfl⟩, ?_, ?_, ⟨dv, rfl⟩, ?_, ?_, ?_, ?_, ?_,
    ?_⟩
  · simp [vidprop, hfs, hv, hwv, hhv, hdv]
  · by_cases hb : basename path = ""
    · exact Or.inl (by simp [orNoneStr, hb])
    · exact Or.inr ⟨basename path, by simp [orNoneStr, hb]⟩
  · by_cases he : fs.existsAtRead = true
    · exact ⟨fs.size, by simp [he]⟩
    · exact ⟨0, by simp [he]⟩
  · cases hcn : s.getOpt "codec_name" with
    | none => exact Or.inl (by simp [orNone, hcn])
    | some v =>
      by_cases ht : pyTruthy v = true
      · obtain ⟨cn, rfl⟩ := hc v hcn ht
        exact Or.inr ⟨cn, by simp [orNone, hcn, ht]⟩
      · have ht' : pyTruthy v = false := by simpa using ht
        exact Or.inl (by simp [orNone, hcn, ht'])
  · cases hfr : pyFraction (s.getOpt "avg_frame_rate") with
    | none => exact Or.inr (by simp [fpsField, hfr])
    | some q => exact Or.inl ⟨q, by simp [fpsField, hfr]⟩
  · intro h0
    rw [h0] at hwv
    simp [intField, pyInt] at hwv
    simp [hwv]
  · intro h0
    rw [h0] at hhv
    simp [intField, pyInt] at hhv
    simp [hhv]
  · intro h0
    rw [h0] at hdv
    simp [floatField, pyFloat] at hdv
    simp [hdv]
  · intro h0
    simp [orNone, h0]
  · intro h0
    simp [fpsField, pyFraction, h0]
  · intro h0
    simp [h0]

/-- C2 witness: a fully-populated concrete video descriptor satisfies the
hypotheses and yields a successful typed record. -/
theorem c2_typed_record_witness :
    (intField ((Stream.mk "video"
        [("width", .vInt 640), ("height", .vInt 360),
         ("codec_name", .vStr "h264"), ("avg_frame_rate", .vStr "30/1"),
         ("duration", .vStr "5.0")]).getOpt "width")).isSome = true ∧
    ∃ m, (vidprop ⟨true, true, 7⟩ (.ok [⟨"video",
        [("width", .vInt 640), ("height", .vInt 360),
         ("codec_name", .vStr "h264"), ("avg_frame_rate", .vStr "30/1"),
         ("duration", .vStr "5.0")]⟩]) "a.mp4").1 = .ok m ∧
      (∃ n, m.width = .vInt n) ∧ (∃ q, m.duration = .vFloat q) := by
  refine ⟨by decide, ?_⟩
  have hc : ∀ v, (Stream.mk "video"
      [("width", .vInt 640), ("height", .vInt 360),
       ("codec_name", .vStr "h264"), ("avg_frame_rate", .vStr "30/1"),
       ("duration", .vStr "5.0")]).getOpt "codec_name" = some v →
      pyTruthy v = true → ∃ cn, v = PyVal.vStr cn := by
    intro v hv ht
    have hcn : (Stream.mk "video"
        [("width", .vInt 640), ("height", .vInt 360),
         ("codec_name", .vStr "h264"), ("avg_frame_rate", .vStr "30/1"),
         ("duration", .vStr "5.0")]).getOpt "codec_name"
        = some (PyVal.vStr "h264") := by decide
    exact ⟨"h264", Option.some.inj (hv.symm.trans hcn)⟩
  obtain ⟨m, hr, -, -, hwd, -, -, -, hdu, -⟩ :=
    c2_typed_record ⟨true, true, 7⟩
      [⟨"video", [("width", .vInt 640), ("height", .vInt 360),
        ("codec_name", .vStr "h264"), ("avg_frame_rate", .vStr "30/1"),
        ("duration", .vStr "5.0")]⟩] "a.mp4"
      ⟨"video", [("width", .vInt 640), ("height", .vInt 360),
        ("codec_name", .vStr "h264"), ("avg_frame_rate", .vStr "30/1"),
        ("duration", .vStr "5.0")]⟩ rfl rfl (by decide) (by decide) (by decide)
      hc
  exact ⟨m, hr, hwd, hdu⟩

end FfmpegHelpers
